import Mathlib

/-!
Shallow embedding of the VetChain core contracts:

* `AnimalNFT.sol` — the identity/ownership/authorization ledger (an ERC721
  token per animal, OpenZeppelin v5 semantics for `_update`, `_mint`,
  `_burn`, `transferFrom`, `ownerOf`), and
* `MedicalStorage` — the append-only medical log with the derived
  vaccine-expiry scalar and the birth-date table.

Addresses and token/license identifiers are `Nat`, with `0` playing the
role of the zero address (= "no owner" / "no binding").  Time is a `Nat`
Unix timestamp passed with every operation as `now` (the contract's
`block.timestamp`).  The two external collaborator contracts
(`vetNftContract.ownerOf` and `vetRegistry.isValid`) are a read-only
environment `Env` sampled at call time.  A reverting call is modelled as
`Except.error e` returning the *unchanged* state (EVM reverts roll back
every write), a successful call as `Except.ok` of the new state.
-/

namespace VetChain

/-- The `enum RecordType` shared by `AnimalNFT.sol` and `MedicalStorage`. -/
inductive RecordType
  | GENERAL
  | VACCINE
  | SURGERY
  | XRAY
  | DECEASED
deriving DecidableEq, Repr

/-- One `MedicalRecordAdded` event of `MedicalStorage` (the on-chain log
from which the dApp reconstructs the clinical history). -/
structure MedRecord where
  tokenId : Nat
  timestamp : Nat
  descriptionIpfs : String
  vet : Nat
  rtype : RecordType
deriving DecidableEq, Repr

/-- Pointwise update of a `Nat`-valued mapping (Solidity `m[k] = v`). -/
def upd (m : Nat → Nat) (k v : Nat) : Nat → Nat :=
  fun i => if i = k then v else m i

/-- Pointwise update of a two-key mapping (`m[k1][k2] = v`). -/
def upd2 (m : Nat → Nat → Nat) (k1 k2 v : Nat) : Nat → Nat → Nat :=
  fun i j => if i = k1 ∧ j = k2 then v else m i j

/-- Pointwise update of a `Bool`-valued mapping. -/
def updB (m : Nat → Bool) (k : Nat) (v : Bool) : Nat → Bool :=
  fun i => if i = k then v else m i

/-- Pointwise update of a `String`-valued mapping. -/
def updS (m : Nat → String) (k : Nat) (v : String) : Nat → String :=
  fun i => if i = k then v else m i

/-- Snapshot of the two external collaborator contracts at call time:
`vetNftContract.ownerOf` (0 = token does not exist / reverts treated as
no owner) and `vetRegistry.isValid`. -/
structure Env where
  vetNftOwnerOf : Nat → Nat
  vetIsValid : Nat → Bool

/-- Combined storage of `AnimalNFT` and its `MedicalStorage`:

* `owners` — ERC721 `_owners` (`0` = unminted or burned);
* `tokenApprovals` / `operatorApprovals` — ERC721 approval tables;
* `tokenURIs` — `ERC721URIStorage._tokenURIs`;
* `tokenNonce` — `AnimalNFT._tokenNonce` (the ownership epoch);
* `vetApprovalNonce` — `AnimalNFT._vetApprovalNonce` (tokenId → vet → nonce);
* `isLost` — `AnimalNFT.isLost`;
* `vetWalletToLicenseId` — `AnimalNFT.vetWalletToLicenseId`;
* `vaccineExpiration`, `birthDates` — `MedicalStorage` mappings;
* `records` — the ordered log of `MedicalRecordAdded` events. -/
structure ChainState where
  owners : Nat → Nat
  tokenApprovals : Nat → Nat
  operatorApprovals : Nat → Nat → Bool
  tokenURIs : Nat → String
  tokenNonce : Nat → Nat
  vetApprovalNonce : Nat → Nat → Nat
  isLost : Nat → Bool
  vetWalletToLicenseId : Nat → Nat
  vaccineExpiration : Nat → Nat
  birthDates : Nat → Nat
  records : List MedRecord

/-- The revert reasons of the two contracts and of the inherited
OpenZeppelin ERC721 machinery. -/
inductive Err
  | NoLicenseLinked
  | LicenseNotOwned
  | LicenseExpiredOrRevoked
  | AnimalNotExistsOrDeceased
  | PermissionRequired
  | VaccineExpired
  | AnimalLost
  | AnimalTooYoung
  | NotTheOwner
  | ERC721InvalidReceiver
  | ERC721InvalidSender
  | ERC721NonexistentToken
  | ERC721InsufficientApproval
  | ERC721IncorrectOwner
  | ERC721InvalidApprover
  | ERC721InvalidOperator
deriving DecidableEq, Repr

namespace MedicalStorage

/-- Source `MedicalStorage.setBirthDate`: unconditionally stores the birth date
(the only guard in the source is `onlyController`, which the composed
system always satisfies because `AnimalNFT` is the controller). -/
def setBirthDate (s : ChainState) (tokenId birthDate : Nat) : ChainState :=
  { s with birthDates := upd s.birthDates tokenId birthDate }

/-- Source `MedicalStorage.addEntry`: if the record is a VACCINE, overwrite
`vaccineExpiration[tokenId] = block.timestamp + daysValid * 1 days`;
then emit the `MedicalRecordAdded` event (modelled as appending onto the
log). -/
def addEntry (s : ChainState) (now tokenId : Nat) (ipfsHash : String)
    (vet : Nat) (rtype : RecordType) (daysValid : Nat) : ChainState :=
  let s1 :=
    if rtype = RecordType.VACCINE then
      { s with vaccineExpiration := upd s.vaccineExpiration tokenId (now + daysValid * 86400) }
    else s
  { s1 with records := s1.records ++ [⟨tokenId, now, ipfsHash, vet, rtype⟩] }

/-- Source `MedicalStorage.isVaccineValid`: `block.timestamp < vaccineExpiration[id]`. -/
def isVaccineValid (s : ChainState) (now tokenId : Nat) : Bool :=
  decide (now < s.vaccineExpiration tokenId)

/-- Source `MedicalStorage.getBirthDate`. -/
def getBirthDate (s : ChainState) (tokenId : Nat) : Nat :=
  s.birthDates tokenId

end MedicalStorage

/-- The clinical history of one animal as the dApp reconstructs it from
the `MedicalRecordAdded` event log, oldest first. -/
def getHistory (s : ChainState) (tokenId : Nat) : List MedRecord :=
  s.records.filter (fun r => decide (r.tokenId = tokenId))

/-- Continuation helper for a Solidity `require`-style guard that
reverts with `e` when `g = some e` and otherwise continues. -/
def guarded {A : Type} (g : Option Err) (cont : Except Err A) : Except Err A :=
  match g with
  | some e => .error e
  | none => cont

namespace AnimalNFT

/-- OpenZeppelin `ERC721._isAuthorized(owner, spender, tokenId)`. -/
def isAuthorized (s : ChainState) (owner spender tokenId : Nat) : Bool :=
  decide (spender ≠ 0) &&
    (decide (owner = spender) || s.operatorApprovals owner spender ||
      decide (s.tokenApprovals tokenId = spender))

/-- OpenZeppelin `ERC721._update(toAddr, tokenId, auth)` (v5): check
authorization when `auth != 0`, clear the token approval and move the
token, returning the previous owner. -/
def erc721Update (s : ChainState) (toAddr tokenId auth : Nat) :
    Except Err (ChainState × Nat) :=
  let frm := s.owners tokenId
  if auth ≠ 0 ∧ isAuthorized s frm auth tokenId = false then
    if frm = 0 then .error .ERC721NonexistentToken
    else .error .ERC721InsufficientApproval
  else
    let s1 :=
      if frm ≠ 0 then { s with tokenApprovals := upd s.tokenApprovals tokenId 0 }
      else s
    .ok ({ s1 with owners := upd s1.owners tokenId toAddr }, frm)

/-- The three health gates of `AnimalNFT._update`, in source order:
vaccine currency, lost flag, minimum weaning age (60 days = 5184000 s,
checked only when a birth date is set).  Returns the first violated
gate's error. -/
def transferGateErr (s : ChainState) (now tokenId : Nat) : Option Err :=
  if MedicalStorage.isVaccineValid s now tokenId = false then some .VaccineExpired
  else if s.isLost tokenId then some .AnimalLost
  else if 0 < s.birthDates tokenId ∧ now < s.birthDates tokenId + 5184000 then
    some .AnimalTooYoung
  else none

/-- The `AnimalNFT._update` override: the health gates run only for real
transfers (`from ≠ 0` and `toAddr ≠ 0`); then the ownership nonce is
incremented whenever `from ≠ 0` (transfers *and* burns); finally
`super._update` runs. -/
def update (s : ChainState) (now toAddr tokenId auth : Nat) :
    Except Err (ChainState × Nat) :=
  let frm := s.owners tokenId
  guarded (if frm ≠ 0 ∧ toAddr ≠ 0 then transferGateErr s now tokenId else none)
    (let s1 :=
      if frm ≠ 0 then
        { s with tokenNonce := upd s.tokenNonce tokenId (s.tokenNonce tokenId + 1) }
      else s
     erc721Update s1 toAddr tokenId auth)

/-- The `onlyValidVet` modifier: the caller must have linked a license,
still own the license NFT, and the license must be valid in the registry
— all re-checked against the current external state `env`.  Returns the
first failing check's error, `none` when the caller passes. -/
def checkVet (env : Env) (s : ChainState) (caller : Nat) : Option Err :=
  let licenseId := s.vetWalletToLicenseId caller
  if licenseId = 0 then some .NoLicenseLinked
  else if env.vetNftOwnerOf licenseId ≠ caller then some .LicenseNotOwned
  else if env.vetIsValid licenseId = false then some .LicenseExpiredOrRevoked
  else none

/-- Source `AnimalNFT.exists(tokenId)`: the token has a (nonzero) owner. -/
def tokenExists (s : ChainState) (tokenId : Nat) : Bool :=
  decide (s.owners tokenId ≠ 0)

/-- Continuation of OpenZeppelin v5 `_mint` after `_update`: revert
`ERC721InvalidSender` when the token already had an owner, else store
the URI (`_setTokenURI`). -/
def afterMint (uri : String) (chipId : Nat) (r : Except Err (ChainState × Nat)) :
    Except Err ChainState :=
  match r with
  | .error e => .error e
  | .ok (s3, prev) =>
      if prev ≠ 0 then .error .ERC721InvalidSender
      else .ok { s3 with tokenURIs := updS s3.tokenURIs chipId uri }

/-- Continuation of OpenZeppelin v5 `_burn` after `_update`: revert
`ERC721NonexistentToken` when the token had no owner. -/
def afterBurn (r : Except Err (ChainState × Nat)) : Except Err ChainState :=
  match r with
  | .error e => .error e
  | .ok (s2, prev) =>
      if prev = 0 then .error .ERC721NonexistentToken
      else .ok s2

/-- Continuation of OpenZeppelin v5 `transferFrom` after `_update`:
revert when the returned previous owner differs from the `from`
argument. -/
def afterUpdate (frm : Nat) (r : Except Err (ChainState × Nat)) :
    Except Err ChainState :=
  match r with
  | .error e => .error e
  | .ok (s1, prev) =>
      if prev = frm then .ok s1
      else if prev = 0 then .error .ERC721NonexistentToken
      else .error .ERC721IncorrectOwner

/-- Source `AnimalNFT.registerAnimal`: vet gate, store the birth date, set the
nonce set at 1, `_safeMint` (OZ v5 `_mint`: revert `ERC721InvalidReceiver`
for the zero address, run `_update`, revert `ERC721InvalidSender` when
the token already had an owner), store the URI. -/
def registerAnimal (env : Env) (s : ChainState) (now caller toOwner chipId : Nat)
    (uri : String) (birthDate : Nat) : Except Err ChainState :=
  guarded (checkVet env s caller)
    (if toOwner = 0 then .error .ERC721InvalidReceiver
     else afterMint uri chipId
       (update { MedicalStorage.setBirthDate s chipId birthDate with
           tokenNonce := upd (MedicalStorage.setBirthDate s chipId birthDate).tokenNonce chipId 1 }
         now toOwner chipId 0))

/-- Source `AnimalNFT.addMedicalRecord`: vet gate, existence check, live-grant
check (`_vetApprovalNonce[id][vet] == _tokenNonce[id]`), append the
entry, then delete the grant. -/
def addMedicalRecord (env : Env) (s : ChainState) (now caller tokenId : Nat)
    (desc : String) (rtype : RecordType) (daysValid : Nat) :
    Except Err ChainState :=
  guarded (checkVet env s caller)
    (if s.owners tokenId = 0 then .error .AnimalNotExistsOrDeceased
     else if s.vetApprovalNonce tokenId caller ≠ s.tokenNonce tokenId then
       .error .PermissionRequired
     else
       let s1 := MedicalStorage.addEntry s now tokenId desc caller rtype daysValid
       .ok { s1 with vetApprovalNonce := upd2 s1.vetApprovalNonce tokenId caller 0 })

/-- Source `AnimalNFT.reportDecease`: vet gate, append the terminal DECEASED
entry, read `tokenURI` (which reverts `ERC721NonexistentToken` for an
unowned token), `_burn` the token. -/
def reportDecease (env : Env) (s : ChainState) (now caller tokenId : Nat)
    (certHash : String) : Except Err ChainState :=
  guarded (checkVet env s caller)
    (if (MedicalStorage.addEntry s now tokenId certHash caller RecordType.DECEASED 0).owners tokenId = 0 then
       .error .ERC721NonexistentToken
     else afterBurn
       (update (MedicalStorage.addEntry s now tokenId certHash caller RecordType.DECEASED 0) now 0 tokenId 0))

/-- Source `AnimalNFT.approveVet`: `ownerOf` (reverts for an unowned token),
owner check, then bind the grant at the *current* nonce. -/
def approveVet (s : ChainState) (caller vet tokenId : Nat) :
    Except Err ChainState :=
  if s.owners tokenId = 0 then .error .ERC721NonexistentToken
  else if s.owners tokenId ≠ caller then .error .NotTheOwner
  else .ok { s with vetApprovalNonce := upd2 s.vetApprovalNonce tokenId vet (s.tokenNonce tokenId) }

/-- Source `AnimalNFT.setLostStatus`: owner-only toggle of the lost flag. -/
def setLostStatus (s : ChainState) (caller tokenId : Nat) (status : Bool) :
    Except Err ChainState :=
  if s.owners tokenId = 0 then .error .ERC721NonexistentToken
  else if s.owners tokenId ≠ caller then .error .NotTheOwner
  else .ok { s with isLost := updB s.isLost tokenId status }

/-- Source `AnimalNFT.linkVetLicense`: ownership and validity of the license at
call time, then bind (re-linking overwrites). -/
def linkVetLicense (env : Env) (s : ChainState) (caller licenseId : Nat) :
    Except Err ChainState :=
  if env.vetNftOwnerOf licenseId ≠ caller then .error .LicenseNotOwned
  else if env.vetIsValid licenseId = false then .error .LicenseExpiredOrRevoked
  else .ok { s with vetWalletToLicenseId := upd s.vetWalletToLicenseId caller licenseId }

/-- OpenZeppelin `ERC721.transferFrom(from, toAddr, tokenId)` with
`msg.sender = caller` — the concrete ownership-transfer entry point of
`AnimalNFT` (the spec's `transferOwnership`). -/
def transferFrom (s : ChainState) (now caller frm toAddr tokenId : Nat) :
    Except Err ChainState :=
  if toAddr = 0 then .error .ERC721InvalidReceiver
  else afterUpdate frm (update s now toAddr tokenId caller)

/-- OpenZeppelin `ERC721.approve(toAddr, tokenId)` with `msg.sender = caller`. -/
def erc721Approve (s : ChainState) (caller toAddr tokenId : Nat) :
    Except Err ChainState :=
  if s.owners tokenId = 0 then .error .ERC721NonexistentToken
  else if caller ≠ 0 ∧ s.owners tokenId ≠ caller ∧
      s.operatorApprovals (s.owners tokenId) caller = false then
    .error .ERC721InvalidApprover
  else .ok { s with tokenApprovals := upd s.tokenApprovals tokenId toAddr }

/-- OpenZeppelin `ERC721.setApprovalForAll(operator, approved)` with
`msg.sender = caller`. -/
def setApprovalForAll (s : ChainState) (caller operatorAddr : Nat)
    (approved : Bool) : Except Err ChainState :=
  if operatorAddr = 0 then .error .ERC721InvalidOperator
  else .ok { s with operatorApprovals := fun i j => if i = caller ∧ j = operatorAddr then approved else s.operatorApprovals i j }

end AnimalNFT

/-- Returns `true` exactly on non-reverting calls. -/
def isOk : Except Err ChainState → Bool
  | .ok _ => true
  | .error _ => false

/-- The post-state of a non-reverting call (`d` as a dummy for reverts). -/
def getOk (d : ChainState) : Except Err ChainState → ChainState
  | .ok s => s
  | .error _ => d


/-- One external transaction against the composed system (the public
entry points of `AnimalNFT`, including the inherited ERC721 approval
endpoints), tagged with its `msg.sender`. -/
inductive Op where
  | link (caller licenseId : Nat)
  | register (caller toOwner chipId : Nat) (uri : String) (birthDate : Nat)
  | approve (caller vet tokenId : Nat)
  | addRecord (caller tokenId : Nat) (desc : String) (rtype : RecordType) (daysValid : Nat)
  | decease (caller tokenId : Nat) (cert : String)
  | transfer (caller frm toAddr tokenId : Nat)
  | setLost (caller tokenId : Nat) (status : Bool)
  | approveToken (caller toAddr tokenId : Nat)
  | setForAll (caller operatorAddr : Nat) (approved : Bool)

/-- The `msg.sender` of a transaction. -/
def Op.sender : Op → Nat
  | .link c _ => c
  | .register c _ _ _ _ => c
  | .approve c _ _ => c
  | .addRecord c _ _ _ _ => c
  | .decease c _ _ => c
  | .transfer c _ _ _ => c
  | .setLost c _ _ => c
  | .approveToken c _ _ => c
  | .setForAll c _ _ => c

/-- Dispatch one transaction at time `now` against external state `env`. -/
def step (env : Env) (now : Nat) (op : Op) (s : ChainState) : Except Err ChainState :=
  match op with
  | .link c l => AnimalNFT.linkVetLicense env s c l
  | .register c ow chip uri bd => AnimalNFT.registerAnimal env s now c ow chip uri bd
  | .approve c v t => AnimalNFT.approveVet s c v t
  | .addRecord c t d rt dv => AnimalNFT.addMedicalRecord env s now c t d rt dv
  | .decease c t cert => AnimalNFT.reportDecease env s now c t cert
  | .transfer c frm toA t => AnimalNFT.transferFrom s now c frm toA t
  | .setLost c t b => AnimalNFT.setLostStatus s c t b
  | .approveToken c toA t => AnimalNFT.erc721Approve s c toA t
  | .setForAll c o b => AnimalNFT.setApprovalForAll s c o b

/-- The freshly deployed system: every mapping at its Solidity default. -/
def initState : ChainState where
  owners := fun _ => 0
  tokenApprovals := fun _ => 0
  operatorApprovals := fun _ _ => false
  tokenURIs := fun _ => ""
  tokenNonce := fun _ => 0
  vetApprovalNonce := fun _ _ => 0
  isLost := fun _ => false
  vetWalletToLicenseId := fun _ => 0
  vaccineExpiration := fun _ => 0
  birthDates := fun _ => 0
  records := []

/-- States reachable from deployment by successful transactions whose
sender is not the zero address (no EVM transaction originates from 0). -/
inductive Reachable : ChainState → Prop
  | refl : Reachable initState
  | next {env : Env} {now : Nat} {op : Op} {s s' : ChainState} :
      Reachable s → Op.sender op ≠ 0 → step env now op s = .ok s' → Reachable s'

/-- The basic storage invariant of the composed system: every owned
token has a positive ownership nonce, unowned tokens carry no ERC721
token approval, and the zero address has granted no operator approvals. -/
def Good (s : ChainState) : Prop :=
  (∀ t, s.owners t ≠ 0 → 0 < s.tokenNonce t) ∧
  (∀ t, s.owners t = 0 → s.tokenApprovals t = 0) ∧
  (∀ x, s.operatorApprovals 0 x = false)


/-! ### Concrete test fixture

A small closed scenario used by the witness and counterexample theorems:
vet address 3 holds license NFT 7, valid in the registry; owners are the
addresses 2 and 5; the animal is chip id 1 with birth date 900. -/

/-- External directory snapshot: license 7 is owned by address 3 and valid. -/
def envA : Env where
  vetNftOwnerOf := fun l => if l = 7 then 3 else 0
  vetIsValid := fun l => decide (l = 7)

/-- After vet 3 links license 7. -/
def stLink : ChainState := getOk initState (step envA 0 (.link 3 7) initState)

/-- After vet 3 registers chip 1 to owner 2 at time 1000 (birth 900). -/
def stReg : ChainState := getOk initState (step envA 1000 (.register 3 2 1 "uri" 900) stLink)

/-- After owner 2 reports animal 1 lost at time 1200 (separate branch
of the scenario, not used by the later fixtures). -/
def stLost : ChainState := getOk initState (step envA 1200 (.setLost 2 1 true) stReg)

/-- After owner 2 grants vet 3 write access for animal 1. -/
def stAppr : ChainState := getOk initState (step envA 1100 (.approve 2 3 1) stReg)

/-- After vet 3 writes a 10-day VACCINE record at time 2000. -/
def stVax : ChainState := getOk initState (step envA 2000 (.addRecord 3 1 "vx" .VACCINE 10) stAppr)

/-- After owner 2 grants vet 3 access again. -/
def stAppr2 : ChainState := getOk initState (step envA 5100000 (.approve 2 3 1) stVax)

/-- After vet 3 writes a 100-day VACCINE record at time 5200000. -/
def stVax2 : ChainState := getOk initState (step envA 5200000 (.addRecord 3 1 "vx2" .VACCINE 100) stAppr2)

/-- After owner 2 grants vet 3 access a third time (nonce still 1). -/
def stApprD : ChainState := getOk initState (step envA 5210000 (.approve 2 3 1) stVax2)

/-- After owner 2 transfers animal 1 to owner 5 at time 5220000 (all
gates pass; the grant of `stApprD` is left dangling at the old nonce). -/
def stXfer : ChainState := getOk initState (step envA 5220000 (.transfer 2 2 5 1) stApprD)

/-- After vet 3 files a DECEASED record through `addMedicalRecord`
(consuming the third grant) — the token is *not* burned by this path. -/
def stDeadRec : ChainState := getOk initState (step envA 5215000 (.addRecord 3 1 "death" .DECEASED 0) stApprD)

/-- After vet 3 reports the decease of the freshly registered animal at
time 1500 (burning the token). -/
def stDec : ChainState := getOk initState (step envA 1500 (.decease 3 1 "cert") stReg)


/-- External directory snapshot in which license 7 has been revoked. -/
def envRevoked : Env where
  vetNftOwnerOf := fun l => if l = 7 then 3 else 0
  vetIsValid := fun _ => false

open AnimalNFT

/-! ### Helper lemmas -/

@[simp] theorem guarded_some {A : Type} (e : Err) (k : Except Err A) :
    guarded (some e) k = .error e := rfl

@[simp] theorem guarded_none {A : Type} (k : Except Err A) :
    guarded none k = k := rfl

@[simp] theorem afterMint_error (uri : String) (chip : Nat) (e : Err) :
    afterMint uri chip (.error e) = .error e := rfl

@[simp] theorem afterMint_ok (uri : String) (chip : Nat) (s3 : ChainState) (prev : Nat) :
    afterMint uri chip (.ok (s3, prev)) =
      (if prev ≠ 0 then .error .ERC721InvalidSender
       else .ok { s3 with tokenURIs := updS s3.tokenURIs chip uri }) := rfl

@[simp] theorem afterBurn_error (e : Err) : afterBurn (.error e) = .error e := rfl

@[simp] theorem afterBurn_ok (s2 : ChainState) (prev : Nat) :
    afterBurn (.ok (s2, prev)) =
      (if prev = 0 then .error .ERC721NonexistentToken else .ok s2) := rfl

@[simp] theorem afterUpdate_error (frm : Nat) (e : Err) :
    afterUpdate frm (.error e) = .error e := rfl

@[simp] theorem afterUpdate_ok (frm : Nat) (s1 : ChainState) (prev : Nat) :
    afterUpdate frm (.ok (s1, prev)) =
      (if prev = frm then .ok s1
       else if prev = 0 then .error .ERC721NonexistentToken
       else .error .ERC721IncorrectOwner) := rfl

theorem addEntry_records (s : ChainState) (now t : Nat) (d : String) (v : Nat)
    (rt : RecordType) (dv : Nat) :
    (MedicalStorage.addEntry s now t d v rt dv).records = s.records ++ [⟨t, now, d, v, rt⟩] := by
  simp only [MedicalStorage.addEntry]
  split <;> rfl

theorem addEntry_owners (s : ChainState) (now t : Nat) (d : String) (v : Nat)
    (rt : RecordType) (dv : Nat) :
    (MedicalStorage.addEntry s now t d v rt dv).owners = s.owners := by
  simp only [MedicalStorage.addEntry]
  split <;> rfl

theorem addEntry_tokenNonce (s : ChainState) (now t : Nat) (d : String) (v : Nat)
    (rt : RecordType) (dv : Nat) :
    (MedicalStorage.addEntry s now t d v rt dv).tokenNonce = s.tokenNonce := by
  simp only [MedicalStorage.addEntry]
  split <;> rfl

theorem addEntry_vetApprovalNonce (s : ChainState) (now t : Nat) (d : String) (v : Nat)
    (rt : RecordType) (dv : Nat) :
    (MedicalStorage.addEntry s now t d v rt dv).vetApprovalNonce = s.vetApprovalNonce := by
  simp only [MedicalStorage.addEntry]
  split <;> rfl

theorem addEntry_tokenApprovals (s : ChainState) (now t : Nat) (d : String) (v : Nat)
    (rt : RecordType) (dv : Nat) :
    (MedicalStorage.addEntry s now t d v rt dv).tokenApprovals = s.tokenApprovals := by
  simp only [MedicalStorage.addEntry]
  split <;> rfl

theorem addEntry_operatorApprovals (s : ChainState) (now t : Nat) (d : String) (v : Nat)
    (rt : RecordType) (dv : Nat) :
    (MedicalStorage.addEntry s now t d v rt dv).operatorApprovals = s.operatorApprovals := by
  simp only [MedicalStorage.addEntry]
  split <;> rfl

theorem addEntry_isLost (s : ChainState) (now t : Nat) (d : String) (v : Nat)
    (rt : RecordType) (dv : Nat) :
    (MedicalStorage.addEntry s now t d v rt dv).isLost = s.isLost := by
  simp only [MedicalStorage.addEntry]
  split <;> rfl

theorem addEntry_birthDates (s : ChainState) (now t : Nat) (d : String) (v : Nat)
    (rt : RecordType) (dv : Nat) :
    (MedicalStorage.addEntry s now t d v rt dv).birthDates = s.birthDates := by
  simp only [MedicalStorage.addEntry]
  split <;> rfl

theorem addEntry_vetWalletToLicenseId (s : ChainState) (now t : Nat) (d : String) (v : Nat)
    (rt : RecordType) (dv : Nat) :
    (MedicalStorage.addEntry s now t d v rt dv).vetWalletToLicenseId = s.vetWalletToLicenseId := by
  simp only [MedicalStorage.addEntry]
  split <;> rfl

theorem addMedicalRecord_of_checkVet {env : Env} {s : ChainState} {c : Nat} (now t : Nat)
    (d : String) (rt : RecordType) (dv : Nat) (hvet : checkVet env s c = none) :
    addMedicalRecord env s now c t d rt dv =
      (if s.owners t = 0 then .error .AnimalNotExistsOrDeceased
       else if s.vetApprovalNonce t c ≠ s.tokenNonce t then .error .PermissionRequired
       else .ok { MedicalStorage.addEntry s now t d c rt dv with
         vetApprovalNonce := upd2 (MedicalStorage.addEntry s now t d c rt dv).vetApprovalNonce t c 0 }) := by
  unfold addMedicalRecord
  rw [hvet, guarded_none]

/-! ### Claim C7 -/

/-- C7: every VACCINE append overwrites the expiry scalar with
`now + daysValid*86400`; a non-VACCINE append leaves it untouched;
`isVaccineValid` holds iff `now` is strictly below the stored expiry,
and is `false` at the default (never-vaccinated) expiry 0. -/
theorem claim_C7 (s : ChainState) (now tokenId dv vet : Nat) (d : String)
    (rt : RecordType) (hrt : rt ≠ RecordType.VACCINE) :
    (MedicalStorage.addEntry s now tokenId d vet RecordType.VACCINE dv).vaccineExpiration tokenId
        = now + dv * 86400
    ∧ (MedicalStorage.addEntry s now tokenId d vet rt dv).vaccineExpiration tokenId
        = s.vaccineExpiration tokenId
    ∧ (MedicalStorage.isVaccineValid s now tokenId = true ↔ now < s.vaccineExpiration tokenId)
    ∧ (s.vaccineExpiration tokenId = 0 → MedicalStorage.isVaccineValid s now tokenId = false) := by
  refine ⟨?_, ?_, ?_, ?_⟩
  · simp [MedicalStorage.addEntry, upd]
  · simp [MedicalStorage.addEntry, hrt]
  · simp [MedicalStorage.isVaccineValid]
  · intro h
    simp [MedicalStorage.isVaccineValid, h]

/-- Witness for C7 at concrete inputs. -/
theorem claim_C7_witness :
    (RecordType.GENERAL ≠ RecordType.VACCINE)
    ∧ ((MedicalStorage.addEntry initState 50 1 "v" 3 RecordType.VACCINE 2).vaccineExpiration 1
          = 50 + 2 * 86400
       ∧ (MedicalStorage.addEntry initState 50 1 "v" 3 RecordType.GENERAL 2).vaccineExpiration 1
          = initState.vaccineExpiration 1
       ∧ (MedicalStorage.isVaccineValid initState 50 1 = true ↔ 50 < initState.vaccineExpiration 1)
       ∧ (initState.vaccineExpiration 1 = 0 → MedicalStorage.isVaccineValid initState 50 1 = false)) :=
  ⟨by decide, claim_C7 initState 50 1 2 3 "v" RecordType.GENERAL (by decide)⟩

/-! ### Claim C8 -/

/-- C8 (divergence witness): `MedicalStorage.setBirthDate` has no
re-set guard — a first call stores the birth date and a second call on
the same animal silently overwrites it instead of being rejected. -/
theorem claim_C8_overwrite :
    (MedicalStorage.setBirthDate initState 1 1000).birthDates 1 = 1000
    ∧ (MedicalStorage.setBirthDate (MedicalStorage.setBirthDate initState 1 1000) 1 2000).birthDates 1
        = 2000 := by
  constructor <;> rfl

/-! ### Claim C9 -/

/-- C9: `onlyValidVet` consults the License Directory at call time: it
fails when no license is linked, when the linked license NFT is no
longer owned by the caller, or when the registry reports the license
invalid; each of `registerAnimal`, `addMedicalRecord` and
`reportDecease` propagates exactly that failure; and the outcome
depends only on the current directory snapshot at the caller's bound
license (nothing about validity is cached in contract storage). -/
theorem claim_C9 (env env2 : Env) (s : ChainState)
    (c now toOwner chipId tokenId bd dv : Nat) (uri d cert : String)
    (rt : RecordType) (e : Err) :
    (s.vetWalletToLicenseId c = 0 → checkVet env s c = some .NoLicenseLinked)
    ∧ (s.vetWalletToLicenseId c ≠ 0 →
        env.vetNftOwnerOf (s.vetWalletToLicenseId c) ≠ c →
        checkVet env s c = some .LicenseNotOwned)
    ∧ (s.vetWalletToLicenseId c ≠ 0 →
        env.vetNftOwnerOf (s.vetWalletToLicenseId c) = c →
        env.vetIsValid (s.vetWalletToLicenseId c) = false →
        checkVet env s c = some .LicenseExpiredOrRevoked)
    ∧ (checkVet env s c = some e →
        registerAnimal env s now c toOwner chipId uri bd = .error e)
    ∧ (checkVet env s c = some e →
        addMedicalRecord env s now c tokenId d rt dv = .error e)
    ∧ (checkVet env s c = some e →
        reportDecease env s now c tokenId cert = .error e)
    ∧ (env2.vetNftOwnerOf (s.vetWalletToLicenseId c) = env.vetNftOwnerOf (s.vetWalletToLicenseId c) →
        env2.vetIsValid (s.vetWalletToLicenseId c) = env.vetIsValid (s.vetWalletToLicenseId c) →
        checkVet env2 s c = checkVet env s c) := by
  refine ⟨?_, ?_, ?_, ?_, ?_, ?_, ?_⟩
  · intro h0
    simp [checkVet, h0]
  · intro h0 h1
    simp [checkVet, h0, h1]
  · intro h0 h1 h2
    simp [checkVet, h0, h1, h2]
  · intro h
    unfold registerAnimal
    rw [h, guarded_some]
  · intro h
    unfold addMedicalRecord
    rw [h, guarded_some]
  · intro h
    unfold reportDecease
    rw [h, guarded_some]
  · intro h1 h2
    simp only [checkVet, h1, h2]

/-- Witness for C9: with license 7 revoked in the directory, the vet
gate reports `LicenseExpiredOrRevoked` and `addMedicalRecord` fails
with exactly that error, on the concrete registered state. -/
theorem claim_C9_witness :
    checkVet envRevoked stReg 3 = some .LicenseExpiredOrRevoked
    ∧ addMedicalRecord envRevoked stReg 1200 3 1 "d" RecordType.GENERAL 0
        = .error .LicenseExpiredOrRevoked := by
  have h := claim_C9 envRevoked envRevoked stReg 3 1200 2 1 1 900 0 "u" "d" "c"
    RecordType.GENERAL Err.LicenseExpiredOrRevoked
  have hcv : checkVet envRevoked stReg 3 = some .LicenseExpiredOrRevoked :=
    h.2.2.1 (by decide) (by decide) (by decide)
  exact ⟨hcv, h.2.2.2.2.1 hcv⟩


theorem isAuthorized_bump (s : ChainState) (f : Nat → Nat) (o a t : Nat) :
    isAuthorized { s with tokenNonce := f } o a t = isAuthorized s o a t := rfl

theorem linkVetLicense_ok {env : Env} {s s' : ChainState} {c l : Nat}
    (h : linkVetLicense env s c l = .ok s') :
    s' = { s with vetWalletToLicenseId := upd s.vetWalletToLicenseId c l } := by
  unfold linkVetLicense at h
  split at h
  · simp at h
  · split at h
    · simp at h
    · simp only [Except.ok.injEq] at h
      exact h.symm

theorem approveVet_ok {s s' : ChainState} {c v t : Nat}
    (h : approveVet s c v t = .ok s') :
    s.owners t ≠ 0 ∧ s.owners t = c ∧
      s' = { s with vetApprovalNonce := upd2 s.vetApprovalNonce t v (s.tokenNonce t) } := by
  unfold approveVet at h
  split at h
  · simp at h
  · split at h
    · simp at h
    · simp only [Except.ok.injEq] at h
      refine ⟨by assumption, by omega, h.symm⟩

theorem setLostStatus_ok {s s' : ChainState} {c t : Nat} {b : Bool}
    (h : setLostStatus s c t b = .ok s') :
    s.owners t ≠ 0 ∧ s.owners t = c ∧ s' = { s with isLost := updB s.isLost t b } := by
  unfold setLostStatus at h
  split at h
  · simp at h
  · split at h
    · simp at h
    · simp only [Except.ok.injEq] at h
      refine ⟨by assumption, by omega, h.symm⟩

theorem addMedicalRecord_ok {env : Env} {s s' : ChainState} {now c t dv : Nat}
    {d : String} {rt : RecordType}
    (h : addMedicalRecord env s now c t d rt dv = .ok s') :
    checkVet env s c = none ∧ s.owners t ≠ 0 ∧
      s.vetApprovalNonce t c = s.tokenNonce t ∧
      s' = { MedicalStorage.addEntry s now t d c rt dv with
        vetApprovalNonce := upd2 (MedicalStorage.addEntry s now t d c rt dv).vetApprovalNonce t c 0 } := by
  unfold addMedicalRecord at h
  cases hcv : checkVet env s c with
  | some e =>
      rw [hcv, guarded_some] at h
      simp at h
  | none =>
      rw [hcv, guarded_none] at h
      by_cases h1 : s.owners t = 0
      · rw [if_pos h1] at h
        simp at h
      · rw [if_neg h1] at h
        by_cases h2 : s.vetApprovalNonce t c ≠ s.tokenNonce t
        · rw [if_pos h2] at h
          simp at h
        · rw [if_neg h2] at h
          simp only [Except.ok.injEq] at h
          exact ⟨rfl, h1, by omega, h.symm⟩

theorem setApprovalForAll_ok {s s' : ChainState} {c o : Nat} {b : Bool}
    (h : setApprovalForAll s c o b = .ok s') :
    o ≠ 0 ∧ s' = { s with operatorApprovals :=
      fun i j => if i = c ∧ j = o then b else s.operatorApprovals i j } := by
  unfold setApprovalForAll at h
  split at h
  · simp at h
  · simp only [Except.ok.injEq] at h
    exact ⟨by assumption, h.symm⟩

theorem erc721Approve_ok {s s' : ChainState} {c toA t : Nat}
    (h : erc721Approve s c toA t = .ok s') :
    s.owners t ≠ 0 ∧ s' = { s with tokenApprovals := upd s.tokenApprovals t toA } := by
  unfold erc721Approve at h
  split at h
  · simp at h
  · split at h
    · simp at h
    · simp only [Except.ok.injEq] at h
      exact ⟨by assumption, h.symm⟩


theorem update_eq (s : ChainState) (now toA t auth : Nat) :
    update s now toA t auth =
      guarded (if s.owners t ≠ 0 ∧ toA ≠ 0 then transferGateErr s now t else none)
        (if auth ≠ 0 ∧ isAuthorized s (s.owners t) auth t = false then
           (if s.owners t = 0 then .error .ERC721NonexistentToken
            else .error .ERC721InsufficientApproval)
         else
           .ok ({ s with
             tokenNonce := if s.owners t ≠ 0 then upd s.tokenNonce t (s.tokenNonce t + 1) else s.tokenNonce,
             tokenApprovals := if s.owners t ≠ 0 then upd s.tokenApprovals t 0 else s.tokenApprovals,
             owners := upd s.owners t toA }, s.owners t)) := by
  unfold update erc721Update
  by_cases hown : s.owners t = 0
  · simp [hown, guarded, isAuthorized]
  · by_cases hto : toA = 0
    · simp [hown, hto, guarded, isAuthorized]
    · cases hg : transferGateErr s now t with
      | some e => simp [hown, hto, hg, guarded]
      | none => simp [hown, hto, hg, guarded, isAuthorized]



theorem transferGateErr_none_iff (s : ChainState) (now t : Nat) :
    transferGateErr s now t = none ↔
      MedicalStorage.isVaccineValid s now t = true ∧ s.isLost t = false ∧
        (0 < s.birthDates t → s.birthDates t + 5184000 ≤ now) := by
  unfold transferGateErr
  split_ifs with h1 h2 h3 <;> simp_all <;> omega

theorem transferGateErr_vaccine {s : ChainState} {now t : Nat}
    (h : MedicalStorage.isVaccineValid s now t = false) :
    transferGateErr s now t = some .VaccineExpired := by
  simp [transferGateErr, h]

theorem transferGateErr_lost {s : ChainState} {now t : Nat}
    (hv : MedicalStorage.isVaccineValid s now t = true) (h : s.isLost t = true) :
    transferGateErr s now t = some .AnimalLost := by
  simp [transferGateErr, hv, h]

theorem transferGateErr_young {s : ChainState} {now t : Nat}
    (hv : MedicalStorage.isVaccineValid s now t = true) (hl : s.isLost t = false)
    (hb : 0 < s.birthDates t) (hn : now < s.birthDates t + 5184000) :
    transferGateErr s now t = some .AnimalTooYoung := by
  simp [transferGateErr, hv, hl, hb, hn]

theorem transferFrom_eq (s : ChainState) (now c frm toA t : Nat)
    (hto : toA ≠ 0) (hfrm : s.owners t ≠ 0) :
    transferFrom s now c frm toA t =
      guarded (transferGateErr s now t)
        (if c ≠ 0 ∧ isAuthorized s (s.owners t) c t = false then
           .error .ERC721InsufficientApproval
         else if s.owners t = frm then
           .ok { s with tokenNonce := upd s.tokenNonce t (s.tokenNonce t + 1),
                        tokenApprovals := upd s.tokenApprovals t 0,
                        owners := upd s.owners t toA }
         else .error .ERC721IncorrectOwner) := by
  unfold transferFrom
  rw [update_eq, if_neg hto, if_pos (And.intro hfrm hto)]
  cases hg : transferGateErr s now t with
  | some e => simp
  | none =>
      rw [guarded_none, guarded_none]
      by_cases hc : c ≠ 0 ∧ isAuthorized s (s.owners t) c t = false
      · rw [if_pos hc, if_pos hc, if_neg hfrm, afterUpdate_error]
      · rw [if_neg hc, if_neg hc, afterUpdate_ok]
        by_cases hpf : s.owners t = frm
        · rw [if_pos hpf, if_pos hpf]
          simp [hfrm]
        · rw [if_neg hpf, if_neg hpf, if_neg hfrm]

theorem transferFrom_ok {s s' : ChainState} {now c frm toA t : Nat}
    (h : transferFrom s now c frm toA t = .ok s') :
    toA ≠ 0 ∧ s.owners t = frm ∧
      (c ≠ 0 → isAuthorized s (s.owners t) c t = true) ∧
      (s.owners t ≠ 0 → transferGateErr s now t = none) ∧
      s' = { s with
        tokenNonce := if s.owners t ≠ 0 then upd s.tokenNonce t (s.tokenNonce t + 1) else s.tokenNonce,
        tokenApprovals := if s.owners t ≠ 0 then upd s.tokenApprovals t 0 else s.tokenApprovals,
        owners := upd s.owners t toA } := by
  unfold transferFrom at h
  by_cases hto : toA = 0
  · rw [if_pos hto] at h
    simp at h
  · rw [if_neg hto, update_eq] at h
    by_cases hcond : s.owners t ≠ 0 ∧ toA ≠ 0
    · rw [if_pos hcond] at h
      cases hg : transferGateErr s now t with
      | some e =>
          rw [hg, guarded_some, afterUpdate_error] at h
          simp at h
      | none =>
          rw [hg, guarded_none] at h
          by_cases hc : c ≠ 0 ∧ isAuthorized s (s.owners t) c t = false
          · rw [if_pos hc, if_neg hcond.1, afterUpdate_error] at h
            simp at h
          · rw [if_neg hc, afterUpdate_ok] at h
            by_cases hpf : s.owners t = frm
            · rw [if_pos hpf] at h
              simp only [Except.ok.injEq] at h
              refine ⟨hto, hpf, ?_, fun _ => rfl, h.symm⟩
              intro hc0
              rcases Bool.eq_false_or_eq_true (isAuthorized s (s.owners t) c t) with hb | hb
              · exact hb
              · exact absurd ⟨hc0, hb⟩ hc
            · rw [if_neg hpf, if_neg hcond.1] at h
              simp at h
    · have hown0 : s.owners t = 0 := by
        by_contra hx
        exact hcond ⟨hx, hto⟩
      rw [if_neg hcond, guarded_none] at h
      by_cases hc : c ≠ 0 ∧ isAuthorized s (s.owners t) c t = false
      · rw [if_pos hc, if_pos hown0, afterUpdate_error] at h
        simp at h
      · rw [if_neg hc, afterUpdate_ok] at h
        by_cases hpf : s.owners t = frm
        · rw [if_pos hpf] at h
          simp only [Except.ok.injEq] at h
          refine ⟨hto, hpf, ?_, fun hx => absurd hown0 hx, h.symm⟩
          intro hc0
          rcases Bool.eq_false_or_eq_true (isAuthorized s (s.owners t) c t) with hb | hb
          · exact hb
          · exact absurd ⟨hc0, hb⟩ hc
        · rw [if_neg hpf, if_pos hown0] at h
          simp at h


theorem registerAnimal_isOk {env : Env} {s : ChainState} {now c toOwner chip bd : Nat}
    {uri : String} (hcv : checkVet env s c = none) (hto : toOwner ≠ 0)
    (hfree : s.owners chip = 0) :
    registerAnimal env s now c toOwner chip uri bd =
      .ok { s with birthDates := upd s.birthDates chip bd,
                   tokenNonce := upd s.tokenNonce chip 1,
                   owners := upd s.owners chip toOwner,
                   tokenURIs := updS s.tokenURIs chip uri } := by
  unfold registerAnimal
  rw [hcv, guarded_none, if_neg hto, update_eq]
  dsimp only [MedicalStorage.setBirthDate]
  rw [hfree]
  simp

theorem registerAnimal_taken (env : Env) (s : ChainState) (now c toOwner chip bd : Nat)
    (uri : String) (hx : s.owners chip ≠ 0) :
    isOk (registerAnimal env s now c toOwner chip uri bd) = false := by
  unfold registerAnimal
  cases hcv : checkVet env s c with
  | some e => rw [guarded_some]; rfl
  | none =>
      rw [guarded_none]
      by_cases hto : toOwner = 0
      · rw [if_pos hto]
        rfl
      · rw [if_neg hto, update_eq]
        dsimp only [MedicalStorage.setBirthDate]
        rw [if_pos (And.intro hx hto)]
        unfold guarded
        split
        · simp [isOk]
        · simp [isOk, hx]

theorem reportDecease_isOk {env : Env} {s : ChainState} {now c t : Nat} {cert : String}
    (hcv : checkVet env s c = none) (hex : s.owners t ≠ 0) :
    reportDecease env s now c t cert =
      .ok { s with records := s.records ++ [⟨t, now, cert, c, RecordType.DECEASED⟩],
                   tokenNonce := upd s.tokenNonce t (s.tokenNonce t + 1),
                   tokenApprovals := upd s.tokenApprovals t 0,
                   owners := upd s.owners t 0 } := by
  unfold reportDecease
  rw [hcv, guarded_none, addEntry_owners, if_neg hex, update_eq, addEntry_owners,
    if_neg (fun hx : ¬_ = 0 ∧ (0 : Nat) ≠ 0 => hx.2 rfl), guarded_none,
    if_neg (fun hx : (0 : Nat) ≠ 0 ∧ _ => hx.1 rfl), afterBurn_ok,
    if_neg hex, if_pos hex, if_pos hex]
  rfl

theorem reportDecease_ok {env : Env} {s s' : ChainState} {now c t : Nat} {cert : String}
    (h : reportDecease env s now c t cert = .ok s') :
    checkVet env s c = none ∧ s.owners t ≠ 0 ∧
      s' = { s with records := s.records ++ [⟨t, now, cert, c, RecordType.DECEASED⟩],
                    tokenNonce := upd s.tokenNonce t (s.tokenNonce t + 1),
                    tokenApprovals := upd s.tokenApprovals t 0,
                    owners := upd s.owners t 0 } := by
  cases hcv : checkVet env s c with
  | some e =>
      unfold reportDecease at h
      rw [hcv, guarded_some] at h
      simp at h
  | none =>
      by_cases hex : s.owners t = 0
      · unfold reportDecease at h
        rw [hcv, guarded_none, addEntry_owners, if_pos hex] at h
        simp at h
      · rw [reportDecease_isOk hcv hex] at h
        simp only [Except.ok.injEq] at h
        exact ⟨rfl, hex, h.symm⟩

theorem registerAnimal_ok {env : Env} {s s' : ChainState} {now c toOwner chip bd : Nat}
    {uri : String} (h : registerAnimal env s now c toOwner chip uri bd = .ok s') :
    checkVet env s c = none ∧ toOwner ≠ 0 ∧ s.owners chip = 0 ∧
      s' = { s with birthDates := upd s.birthDates chip bd,
                    tokenNonce := upd s.tokenNonce chip 1,
                    owners := upd s.owners chip toOwner,
                    tokenURIs := updS s.tokenURIs chip uri } := by
  cases hcv : checkVet env s c with
  | some e =>
      unfold registerAnimal at h
      rw [hcv, guarded_some] at h
      simp at h
  | none =>
      by_cases hto : toOwner = 0
      · unfold registerAnimal at h
        rw [hcv, guarded_none, if_pos hto] at h
        simp at h
      · by_cases hfree : s.owners chip = 0
        · rw [registerAnimal_isOk hcv hto hfree] at h
          simp only [Except.ok.injEq] at h
          exact ⟨rfl, hto, hfree, h.symm⟩
        · have hbad := registerAnimal_taken env s now c toOwner chip bd uri hfree
          rw [h] at hbad
          simp [isOk] at hbad


theorem good_init : Good initState :=
  ⟨fun _ h => absurd rfl h, fun _ _ => rfl, fun _ => rfl⟩

theorem good_step {env : Env} {now : Nat} {op : Op} {s s' : ChainState}
    (hg : Good s) (hsender : Op.sender op ≠ 0) (h : step env now op s = .ok s') :
    Good s' := by
  obtain ⟨hg1, hg2, hg3⟩ := hg
  cases op with
  | link c l =>
      have hs := linkVetLicense_ok h
      subst hs
      exact ⟨hg1, hg2, hg3⟩
  | approve c v t =>
      have hs := (approveVet_ok h).2.2
      subst hs
      exact ⟨hg1, hg2, hg3⟩
  | setLost c t b =>
      have hs := (setLostStatus_ok h).2.2
      subst hs
      exact ⟨hg1, hg2, hg3⟩
  | addRecord c t d rt dv =>
      have hs := (addMedicalRecord_ok h).2.2.2
      subst hs
      refine ⟨fun x hx => ?_, fun x hx => ?_, fun x => ?_⟩
      · simp only [addEntry_owners] at hx
        simp only [addEntry_tokenNonce]
        exact hg1 x hx
      · simp only [addEntry_owners] at hx
        simp only [addEntry_tokenApprovals]
        exact hg2 x hx
      · simp only [addEntry_operatorApprovals]
        exact hg3 x
  | decease c t cert =>
      have hs := (reportDecease_ok h).2.2
      have hex := (reportDecease_ok h).2.1
      subst hs
      refine ⟨fun x hx => ?_, fun x hx => ?_, fun x => ?_⟩
      · simp only [upd] at hx ⊢
        by_cases hxt : x = t
        · simp [hxt] at hx
        · simp only [if_neg hxt] at hx ⊢
          exact hg1 x hx
      · simp only [upd] at hx ⊢
        by_cases hxt : x = t
        · simp [hxt]
        · simp only [if_neg hxt] at hx ⊢
          exact hg2 x hx
      · exact hg3 x
  | register c ow chip uri bd =>
      obtain ⟨_, how, _, hs⟩ := registerAnimal_ok h
      subst hs
      refine ⟨fun x hx => ?_, fun x hx => ?_, fun x => ?_⟩
      · simp only [upd] at hx ⊢
        by_cases hxt : x = chip
        · simp [hxt]
        · simp only [if_neg hxt] at hx ⊢
          exact hg1 x hx
      · simp only [upd] at hx
        by_cases hxt : x = chip
        · rw [if_pos hxt] at hx
          exact absurd hx how
        · rw [if_neg hxt] at hx
          exact hg2 x hx
      · exact hg3 x
  | transfer c frm toA t =>
      obtain ⟨hto, hpf, hauth, _, hs⟩ := transferFrom_ok h
      by_cases hown : s.owners t = 0
      · exfalso
        have ha := hauth hsender
        rw [hown] at ha
        simp only [isAuthorized, hg3 c, hg2 t hown] at ha
        simp at ha
        omega
      · subst hs
        refine ⟨fun x hx => ?_, fun x hx => ?_, fun x => ?_⟩
        · simp only [if_pos (show s.owners t ≠ 0 from hown), upd] at hx ⊢
          by_cases hxt : x = t
          · simp [hxt]
          · simp only [if_neg hxt] at hx ⊢
            exact hg1 x hx
        · simp only [if_pos (show s.owners t ≠ 0 from hown), upd] at hx ⊢
          by_cases hxt : x = t
          · rw [if_pos hxt] at hx
            exact absurd hx hto
          · simp only [if_neg hxt] at hx ⊢
            exact hg2 x hx
        · exact hg3 x
  | approveToken c toA t =>
      obtain ⟨hex, hs⟩ := erc721Approve_ok h
      subst hs
      refine ⟨hg1, fun x hx => ?_, hg3⟩
      simp only [upd]
      by_cases hxt : x = t
      · rw [hxt] at hx
        exact absurd hx hex
      · rw [if_neg hxt]
        exact hg2 x hx
  | setForAll c o b =>
      obtain ⟨_, hs⟩ := setApprovalForAll_ok h
      subst hs
      refine ⟨hg1, hg2, fun x => ?_⟩
      have hc0 : (0 : Nat) ≠ c := fun hx => hsender hx.symm
      simp only [if_neg (fun hx : (0 : Nat) = c ∧ x = o => hc0 hx.1)]
      exact hg3 x

theorem reachable_good {s : ChainState} (h : Reachable s) : Good s := by
  induction h with
  | refl => exact good_init
  | next _ hs hst ih => exact good_step ih hs hst

theorem reachable_nonce_pos {s : ChainState} (h : Reachable s) {t : Nat}
    (hx : s.owners t ≠ 0) : 0 < s.tokenNonce t :=
  (reachable_good h).1 t hx


/-! ### Claim C1 -/

/-- C1: a vet authorization recorded at ownership epoch E (the nonce
stored by `approveVet`) lets `addMedicalRecord` succeed iff the
animal's current epoch is still E; and after a grant followed by a
completed transfer, the vet's attempt fails with the
permission-required error (`AuthorizationExpiredOrMissing`) even though
the vet's license still passes the directory check. -/
theorem claim_C1 {env env2 : Env} {s t0 t1 t2 : ChainState}
    {now now1 now2 c2 owner0 vet tokenId tid2 E frm toA dv dv2 : Nat}
    {d d2 : String} {rt rt2 : RecordType}
    (hvet : checkVet env s vet = none)
    (hex : s.owners tokenId ≠ 0)
    (hgrant : s.vetApprovalNonce tokenId vet = E)
    (hb1 : approveVet t0 owner0 vet tid2 = .ok t1)
    (hb2 : transferFrom t1 now1 c2 frm toA tid2 = .ok t2)
    (hb3 : checkVet env2 t2 vet = none) :
    (isOk (addMedicalRecord env s now vet tokenId d rt dv) = true ↔ s.tokenNonce tokenId = E)
    ∧ addMedicalRecord env2 t2 now2 vet tid2 d2 rt2 dv2 = .error .PermissionRequired := by
  constructor
  · rw [addMedicalRecord_of_checkVet now tokenId d rt dv hvet, if_neg hex]
    by_cases hn : s.vetApprovalNonce tokenId vet ≠ s.tokenNonce tokenId
    · rw [if_pos hn]
      simp only [isOk, Bool.false_eq_true, false_iff]
      omega
    · rw [if_neg hn]
      simp only [isOk, true_iff]
      omega
  · obtain ⟨hex0, _, ht1⟩ := approveVet_ok hb1
    obtain ⟨hto, _, _, _, ht2⟩ := transferFrom_ok hb2
    have h1own : t1.owners = t0.owners := by rw [ht1]
    have h1non : t1.tokenNonce = t0.tokenNonce := by rw [ht1]
    have h1gr : t1.vetApprovalNonce tid2 vet = t0.tokenNonce tid2 := by
      rw [ht1]
      simp [upd2]
    have h2own : t2.owners tid2 = toA := by
      rw [ht2]
      simp [upd]
    have h2gr : t2.vetApprovalNonce = t1.vetApprovalNonce := by rw [ht2]
    have h2non : t2.tokenNonce tid2 = t1.tokenNonce tid2 + 1 := by
      rw [ht2]
      have : t1.owners tid2 ≠ 0 := by
        rw [h1own]
        exact hex0
      simp [this, upd]
    have hown2 : t2.owners tid2 ≠ 0 := by
      rw [h2own]
      exact hto
    rw [addMedicalRecord_of_checkVet now2 tid2 d2 rt2 dv2 hb3, if_neg hown2]
    have hne : t2.vetApprovalNonce tid2 vet ≠ t2.tokenNonce tid2 := by
      rw [h2gr, h1gr, h2non, h1non]
      omega
    rw [if_pos hne]

/-- Witness for C1 on the concrete scenario: the live grant of `stAppr`
is usable at epoch 1, and the grant left dangling across the transfer
to `stXfer` is rejected with `PermissionRequired` although vet 3 is
still licensed. -/
theorem claim_C1_witness :
    ((isOk (addMedicalRecord envA stAppr 2000 3 1 "vx" RecordType.VACCINE 10) = true ↔
        stAppr.tokenNonce 1 = 1)
     ∧ addMedicalRecord envA stXfer 5230000 3 1 "d2" RecordType.GENERAL 0
         = .error .PermissionRequired) :=
  claim_C1 (by decide) (by decide) (by decide)
    (show approveVet stVax2 2 3 1 = .ok stApprD from rfl)
    (show transferFrom stApprD 5220000 2 2 5 1 = .ok stXfer from rfl)
    (by decide)

/-! ### Claim C2 -/

/-- C2 counterexample: `reportDecease` also advances the ownership
nonce — the burn path of `_update` increments `_tokenNonce`, so
transfer is not the only operation that changes the epoch. -/
theorem claim_C2_cex :
    stReg.tokenNonce 1 = 1
    ∧ reportDecease envA stReg 1500 3 1 "cert" = .ok stDec
    ∧ stDec.tokenNonce 1 = 2 := ⟨rfl, rfl, rfl⟩

/-- C2 (amended): the ownership nonce is set to 1 by registration,
incremented by exactly 1 by every successful transfer between owners
AND by every successful `reportDecease` (the burn also runs `_update`
with `from ≠ 0`), and left unchanged by `addMedicalRecord`,
`approveVet`, `setLostStatus` and `linkVetLicense`. -/
theorem claim_C2_amended {env1 env3 env4 env7 : Env}
    {s1 s1' s2 s2' s3 s3' s4 s4' s5 s5' s6 s6' s7 s7' : ChainState}
    {n1 c1 ow1 chip1 bd1 n2 c2 frm2 to2 t2 n3 c3 t3 n4 c4 t4 dv4 c5 v5 t5 c6 t6 c7 l7 : Nat}
    {uri1 cert3 d4 : String} {rt4 : RecordType} {b6 : Bool}
    (h1 : registerAnimal env1 s1 n1 c1 ow1 chip1 uri1 bd1 = .ok s1')
    (h2 : transferFrom s2 n2 c2 frm2 to2 t2 = .ok s2')
    (hfrm2 : s2.owners t2 ≠ 0)
    (h3 : reportDecease env3 s3 n3 c3 t3 cert3 = .ok s3')
    (h4 : addMedicalRecord env4 s4 n4 c4 t4 d4 rt4 dv4 = .ok s4')
    (h5 : approveVet s5 c5 v5 t5 = .ok s5')
    (h6 : setLostStatus s6 c6 t6 b6 = .ok s6')
    (h7 : linkVetLicense env7 s7 c7 l7 = .ok s7') :
    s1'.tokenNonce chip1 = 1
    ∧ s2'.tokenNonce t2 = s2.tokenNonce t2 + 1
    ∧ s3'.tokenNonce t3 = s3.tokenNonce t3 + 1
    ∧ s4'.tokenNonce = s4.tokenNonce
    ∧ s5'.tokenNonce = s5.tokenNonce
    ∧ s6'.tokenNonce = s6.tokenNonce
    ∧ s7'.tokenNonce = s7.tokenNonce := by
  refine ⟨?_, ?_, ?_, ?_, ?_, ?_, ?_⟩
  · rw [(registerAnimal_ok h1).2.2.2]
    simp [upd]
  · rw [(transferFrom_ok h2).2.2.2.2]
    simp [hfrm2, upd]
  · rw [(reportDecease_ok h3).2.2]
    simp [upd]
  · rw [(addMedicalRecord_ok h4).2.2.2]
    simp [addEntry_tokenNonce]
  · rw [(approveVet_ok h5).2.2]
  · rw [(setLostStatus_ok h6).2.2]
  · rw [linkVetLicense_ok h7]

/-- Witness for C2 (amended) on the concrete scenario chain. -/
theorem claim_C2_amended_witness :
    stReg.tokenNonce 1 = 1
    ∧ stXfer.tokenNonce 1 = stApprD.tokenNonce 1 + 1
    ∧ stDec.tokenNonce 1 = stReg.tokenNonce 1 + 1
    ∧ stVax.tokenNonce = stAppr.tokenNonce
    ∧ stAppr.tokenNonce = stReg.tokenNonce
    ∧ stLost.tokenNonce = stReg.tokenNonce
    ∧ stLink.tokenNonce = initState.tokenNonce :=
  claim_C2_amended
    (show registerAnimal envA stLink 1000 3 2 1 "uri" 900 = .ok stReg from rfl)
    (show transferFrom stApprD 5220000 2 2 5 1 = .ok stXfer from rfl)
    (by decide)
    (show reportDecease envA stReg 1500 3 1 "cert" = .ok stDec from rfl)
    (show addMedicalRecord envA stAppr 2000 3 1 "vx" RecordType.VACCINE 10 = .ok stVax from rfl)
    (show approveVet stReg 2 3 1 = .ok stAppr from rfl)
    (show setLostStatus stReg 2 1 true = .ok stLost from rfl)
    (show linkVetLicense envA initState 3 7 = .ok stLink from rfl)


/-! ### Claim C3 -/

/-- C3 counterexample: appending a DECEASED record through
`addMedicalRecord` does NOT terminate the animal — the token is not
burned, no `alive` flag exists, and a subsequent transfer still
succeeds. -/
theorem claim_C3_cex :
    addMedicalRecord envA stApprD 5215000 3 1 "death" RecordType.DECEASED 0 = .ok stDeadRec
    ∧ (getHistory stDeadRec 1).map (fun r => r.rtype)
        = [RecordType.VACCINE, RecordType.VACCINE, RecordType.DECEASED]
    ∧ isOk (transferFrom stDeadRec 5220000 2 2 5 1) = true := ⟨rfl, by decide, rfl⟩

/-- C3 (amended): only `reportDecease` terminates an animal.  After a
successful `reportDecease` the token is burned, every transfer and
`addMedicalRecord` on it fails in the resulting state (with the
nonexistent-token and animal-not-exists errors), and the full prior
history — including the terminal DECEASED record — is still readable.
A DECEASED record filed via `addMedicalRecord` has no such effect, and
the protection lasts only until the id is re-registered. -/
theorem claim_C3_amended {env env2 : Env} {s s' : ChainState}
    {now now2 now3 caller c2 c3 frm2 to2 tokenId dv : Nat} {cert d : String}
    {rt : RecordType}
    (hreach : Reachable s)
    (hc2 : c2 ≠ 0) (hto2 : to2 ≠ 0)
    (hok : reportDecease env s now caller tokenId cert = .ok s')
    (hvet2 : checkVet env2 s' c3 = none) :
    s'.owners tokenId = 0
    ∧ getHistory s' tokenId
        = getHistory s tokenId ++ [⟨tokenId, now, cert, caller, RecordType.DECEASED⟩]
    ∧ transferFrom s' now2 c2 frm2 to2 tokenId = .error .ERC721NonexistentToken
    ∧ addMedicalRecord env2 s' now3 c3 tokenId d rt dv = .error .AnimalNotExistsOrDeceased := by
  obtain ⟨hcv, hex, hs⟩ := reportDecease_ok hok
  have hgood := reachable_good hreach
  subst hs
  have hown0 : ({ s with
      records := s.records ++ [⟨tokenId, now, cert, caller, RecordType.DECEASED⟩],
      tokenNonce := upd s.tokenNonce tokenId (s.tokenNonce tokenId + 1),
      tokenApprovals := upd s.tokenApprovals tokenId 0,
      owners := upd s.owners tokenId 0 } : ChainState).owners tokenId = 0 := by
    simp [upd]
  refine ⟨hown0, ?_, ?_, ?_⟩
  · simp [getHistory, List.filter_append]
  · unfold transferFrom
    rw [if_neg hto2, update_eq, hown0]
    rw [if_neg (fun hx : ¬(0 : Nat) = 0 ∧ _ => hx.1 rfl), guarded_none]
    have hia : isAuthorized { s with
        records := s.records ++ [⟨tokenId, now, cert, caller, RecordType.DECEASED⟩],
        tokenNonce := upd s.tokenNonce tokenId (s.tokenNonce tokenId + 1),
        tokenApprovals := upd s.tokenApprovals tokenId 0,
        owners := upd s.owners tokenId 0 } 0 c2 tokenId = false := by
      simp [isAuthorized, upd, hgood.2.2 c2, Ne.symm hc2]
    rw [if_pos (And.intro hc2 hia), if_pos rfl, afterUpdate_error]
  · rw [addMedicalRecord_of_checkVet now3 tokenId d rt dv hvet2, if_pos hown0]

/-- Witness for C3 (amended) on the concrete burn of animal 1. -/
theorem claim_C3_amended_witness :
    stDec.owners 1 = 0
    ∧ getHistory stDec 1 = getHistory stReg 1 ++ [⟨1, 1500, "cert", 3, RecordType.DECEASED⟩]
    ∧ transferFrom stDec 1600 9 5 4 1 = .error .ERC721NonexistentToken
    ∧ addMedicalRecord envA stDec 1700 3 1 "x" RecordType.GENERAL 0
        = .error .AnimalNotExistsOrDeceased := by
  have r1 : Reachable stLink := .next .refl (by decide)
    (show step envA 0 (.link 3 7) initState = .ok stLink from rfl)
  have r2 : Reachable stReg := .next r1 (by decide)
    (show step envA 1000 (.register 3 2 1 "uri" 900) stLink = .ok stReg from rfl)
  exact claim_C3_amended r2 (by decide) (by decide)
    (show reportDecease envA stReg 1500 3 1 "cert" = .ok stDec from rfl) (by decide)

/-! ### Claim C4 -/

/-- C4: for a transfer between two nonzero owners the three health
gates are evaluated in the order vaccine, lost, age, all before the
ERC721 caller-authorization check; the first violated gate fixes the
reported error (an expired vaccine is reported even when the animal is
also lost or under-age or the caller unauthorized, a lost animal is
reported whenever the vaccine is current), and a successful transfer
implies all three gates held. -/
theorem claim_C4 {s : ChainState} {now caller frm toA tokenId : Nat}
    (hfrm : s.owners tokenId ≠ 0) (hto : toA ≠ 0) :
    (MedicalStorage.isVaccineValid s now tokenId = false →
       transferFrom s now caller frm toA tokenId = .error .VaccineExpired)
    ∧ (MedicalStorage.isVaccineValid s now tokenId = true → s.isLost tokenId = true →
       transferFrom s now caller frm toA tokenId = .error .AnimalLost)
    ∧ (MedicalStorage.isVaccineValid s now tokenId = true → s.isLost tokenId = false →
       0 < s.birthDates tokenId → now < s.birthDates tokenId + 5184000 →
       transferFrom s now caller frm toA tokenId = .error .AnimalTooYoung)
    ∧ (MedicalStorage.isVaccineValid s now tokenId = true → s.isLost tokenId = false →
       (0 < s.birthDates tokenId → s.birthDates tokenId + 5184000 ≤ now) →
       caller ≠ 0 → isAuthorized s (s.owners tokenId) caller tokenId = false →
       transferFrom s now caller frm toA tokenId = .error .ERC721InsufficientApproval)
    ∧ (isOk (transferFrom s now caller frm toA tokenId) = true →
       MedicalStorage.isVaccineValid s now tokenId = true ∧ s.isLost tokenId = false ∧
         (0 < s.birthDates tokenId → s.birthDates tokenId + 5184000 ≤ now)) := by
  refine ⟨?_, ?_, ?_, ?_, ?_⟩
  · intro hvx
    rw [transferFrom_eq s now caller frm toA tokenId hto hfrm,
      transferGateErr_vaccine hvx, guarded_some]
  · intro hv hl
    rw [transferFrom_eq s now caller frm toA tokenId hto hfrm,
      transferGateErr_lost hv hl, guarded_some]
  · intro hv hl hb hn
    rw [transferFrom_eq s now caller frm toA tokenId hto hfrm,
      transferGateErr_young hv hl hb hn, guarded_some]
  · intro hv hl hage hc hia
    have hg : transferGateErr s now tokenId = none :=
      (transferGateErr_none_iff s now tokenId).2 ⟨hv, hl, hage⟩
    rw [transferFrom_eq s now caller frm toA tokenId hto hfrm, hg, guarded_none,
      if_pos (And.intro hc hia)]
  · intro hok
    have hg : transferGateErr s now tokenId = none := by
      cases hgg : transferGateErr s now tokenId with
      | none => rfl
      | some e =>
          rw [transferFrom_eq s now caller frm toA tokenId hto hfrm, hgg,
            guarded_some] at hok
          simp [isOk] at hok
    exact (transferGateErr_none_iff s now tokenId).1 hg

/-- Witness for C4: with the vaccine expired at time 20000000, owner
2's transfer of animal 1 is refused with exactly `VaccineExpired`. -/
theorem claim_C4_witness :
    stApprD.owners 1 ≠ 0 ∧ (5 : Nat) ≠ 0
    ∧ MedicalStorage.isVaccineValid stApprD 20000000 1 = false
    ∧ transferFrom stApprD 20000000 2 2 5 1 = .error .VaccineExpired :=
  ⟨by decide, by decide, by decide,
    (claim_C4 (by decide) (by decide)).1 (by decide)⟩

/-! ### Claim C5 -/

/-- C5: in every reachable state, a successful `addMedicalRecord`
deletes the vet's grant for that animal regardless of the record type,
so a second write by the same vet with no new grant fails with the
permission-required error. -/
theorem claim_C5 {env env2 : Env} {s s' : ChainState}
    {now now2 caller tokenId dv dv2 : Nat} {d d2 : String} {rt rt2 : RecordType}
    (hreach : Reachable s)
    (hok : addMedicalRecord env s now caller tokenId d rt dv = .ok s')
    (hvet2 : checkVet env2 s' caller = none) :
    s'.vetApprovalNonce tokenId caller = 0
    ∧ addMedicalRecord env2 s' now2 caller tokenId d2 rt2 dv2
        = .error .PermissionRequired := by
  obtain ⟨hcv, hex, heq, hs⟩ := addMedicalRecord_ok hok
  have hpos := reachable_nonce_pos hreach hex
  subst hs
  have hdel : ({ MedicalStorage.addEntry s now tokenId d caller rt dv with
      vetApprovalNonce :=
        upd2 (MedicalStorage.addEntry s now tokenId d caller rt dv).vetApprovalNonce
          tokenId caller 0 } : ChainState).vetApprovalNonce tokenId caller = 0 := by
    simp [upd2]
  refine ⟨hdel, ?_⟩
  rw [addMedicalRecord_of_checkVet now2 tokenId d2 rt2 dv2 hvet2]
  have hown : ({ MedicalStorage.addEntry s now tokenId d caller rt dv with
      vetApprovalNonce :=
        upd2 (MedicalStorage.addEntry s now tokenId d caller rt dv).vetApprovalNonce
          tokenId caller 0 } : ChainState).owners tokenId ≠ 0 := by
    simpa [addEntry_owners] using hex
  rw [if_neg hown]
  have hne : ({ MedicalStorage.addEntry s now tokenId d caller rt dv with
      vetApprovalNonce :=
        upd2 (MedicalStorage.addEntry s now tokenId d caller rt dv).vetApprovalNonce
          tokenId caller 0 } : ChainState).vetApprovalNonce tokenId caller ≠
      ({ MedicalStorage.addEntry s now tokenId d caller rt dv with
      vetApprovalNonce :=
        upd2 (MedicalStorage.addEntry s now tokenId d caller rt dv).vetApprovalNonce
          tokenId caller 0 } : ChainState).tokenNonce tokenId := by
    rw [hdel]
    simp only [addEntry_tokenNonce]
    omega
  rw [if_pos hne]

/-- Witness for C5: vet 3's grant is consumed by the vaccine write and
the immediate second write fails. -/
theorem claim_C5_witness :
    stVax.vetApprovalNonce 1 3 = 0
    ∧ addMedicalRecord envA stVax 2100 3 1 "again" RecordType.GENERAL 0
        = .error .PermissionRequired := by
  have r1 : Reachable stLink := .next .refl (by decide)
    (show step envA 0 (.link 3 7) initState = .ok stLink from rfl)
  have r2 : Reachable stReg := .next r1 (by decide)
    (show step envA 1000 (.register 3 2 1 "uri" 900) stLink = .ok stReg from rfl)
  have r3 : Reachable stAppr := .next r2 (by decide)
    (show step envA 1100 (.approve 2 3 1) stReg = .ok stAppr from rfl)
  exact claim_C5 r3
    (show addMedicalRecord envA stAppr 2000 3 1 "vx" RecordType.VACCINE 10 = .ok stVax from rfl)
    (by decide)

/-! ### Claim C6 -/

/-- C6 counterexample: after `reportDecease` burns animal 1 (the
terminal DECEASED record is in the history), `registerAnimal` with the
same chip id succeeds — the identifier IS reusable after termination. -/
theorem claim_C6_cex :
    reportDecease envA stReg 1500 3 1 "cert" = .ok stDec
    ∧ (getHistory stDec 1).map (fun r => r.rtype) = [RecordType.DECEASED]
    ∧ isOk (registerAnimal envA stDec 2000 3 4 1 "uri2" 0) = true := ⟨rfl, by decide, rfl⟩

/-- C6 (amended): `registerAnimal` fails exactly when the id currently
has a (nonzero) owner; after a decease burn the token is deleted, so
the id is again free and a fresh registration with it succeeds —
uniqueness is enforced only among currently-owned tokens, not against
terminated ones. -/
theorem claim_C6_amended {env : Env} {s : ChainState}
    {now c toOwner chipId bd : Nat} {uri : String} :
    (s.owners chipId ≠ 0 → isOk (registerAnimal env s now c toOwner chipId uri bd) = false)
    ∧ (s.owners chipId = 0 → checkVet env s c = none → toOwner ≠ 0 →
       isOk (registerAnimal env s now c toOwner chipId uri bd) = true) := by
  constructor
  · intro hx
    exact registerAnimal_taken env s now c toOwner chipId bd uri hx
  · intro hfree hcv hto
    rw [registerAnimal_isOk hcv hto hfree]
    rfl

/-- Witness for C6 (amended): re-registering the burned id 1 succeeds. -/
theorem claim_C6_amended_witness :
    stDec.owners 1 = 0 ∧ checkVet envA stDec 3 = none ∧ (4 : Nat) ≠ 0
    ∧ isOk (registerAnimal envA stDec 2000 3 4 1 "uri2" 0) = true :=
  ⟨rfl, rfl, by decide, (claim_C6_amended).2 rfl rfl (by decide)⟩

/-! ### Claim C10 -/

/-- C10: the health gates guard only owner-to-owner transfers:
`reportDecease` (a burn) succeeds for any licensed vet on any existing
animal with no hypothesis about the lost flag, vaccine currency or
age, and initial registration (a mint) likewise succeeds on a free id
with no health hypotheses. -/
theorem claim_C10 {env env2 : Env} {s s2 : ChainState}
    {now now2 caller c2 tokenId toOwner chipId bd : Nat} {cert uri : String}
    (hvet : checkVet env s caller = none) (hex : s.owners tokenId ≠ 0)
    (hvet2 : checkVet env2 s2 c2 = none) (hnew : s2.owners chipId = 0)
    (hto : toOwner ≠ 0) :
    isOk (reportDecease env s now caller tokenId cert) = true
    ∧ isOk (registerAnimal env2 s2 now2 c2 toOwner chipId uri bd) = true := by
  constructor
  · rw [reportDecease_isOk hvet hex]
    rfl
  · rw [registerAnimal_isOk hvet2 hto hnew]
    rfl

/-- Witness for C10: animal 1 in `stLost` is lost, has never had a
valid vaccine and is younger than 60 days, yet `reportDecease`
succeeds; and the initial registration that produced `stReg` succeeded
with no vaccine on record. -/
theorem claim_C10_witness :
    stLost.isLost 1 = true
    ∧ MedicalStorage.isVaccineValid stLost 1300 1 = false
    ∧ stLost.birthDates 1 = 900
    ∧ isOk (reportDecease envA stLost 1300 3 1 "c") = true
    ∧ isOk (registerAnimal envA stLink 1000 3 2 1 "uri" 900) = true := by
  have h : isOk (reportDecease envA stLost 1300 3 1 "c") = true
      ∧ isOk (registerAnimal envA stLink 1000 3 2 1 "uri" 900) = true :=
    claim_C10
      (show checkVet envA stLost 3 = none from rfl)
      (show stLost.owners 1 ≠ 0 by decide)
      (show checkVet envA stLink 3 = none from rfl)
      (show stLink.owners 1 = 0 from rfl)
      (show (2 : Nat) ≠ 0 by decide)
  exact ⟨rfl, by decide, rfl, h.1, h.2⟩

end VetChain
